import Mathlib

/-!
Shallow embedding of the core pipeline of `streamlit_app/app.py`
(real-estate investment dashboard): the dataset loader (`load_data`,
lines 21-33), the derived-metrics block (lines 36-49) and the
city/neighbourhood filter block (lines 51-78).

Modelling conventions:
* a pandas cell that may be `NaN` (missing) is an `Option` value, and the
  arithmetic on columns propagates `none` the way pandas propagates `NaN`;
* numbers are exact rationals (`ℚ`), so the float formulas of the source
  are modelled by their exact arithmetic content;
* the presence of a column that the source tests with
  `if 'c' in df.columns` is a boolean flag on the table; accessing a
  column that is absent is modelled as the exception (`KeyError`) that
  pandas would raise there;
* `st.warning`/`st.stop` on an empty selection is modelled by the filter
  returning an `AppError.noMatchingData` outcome instead of a table, and
  the failure branch of `load_data` (which returns `None, None, None`
  after emitting an error message and a traceback) is modelled by a
  `LoadOutcome` with all three tables `none` and the emitted strings
  recorded.
-/

deriving instance DecidableEq for Except

namespace RealEstate

/-- Multiplication on possibly-missing values: `NaN` propagates. -/
def oMul (a b : Option ℚ) : Option ℚ :=
  a.bind (fun x => b.map (fun y => x * y))

/-- Subtraction on possibly-missing values: `NaN` propagates. -/
def oSub (a b : Option ℚ) : Option ℚ :=
  a.bind (fun x => b.map (fun y => x - y))

/-- Division on possibly-missing values: `NaN` propagates.  Division of a
rational by zero is `0` in Lean; no claim below depends on the value of a
division by zero. -/
def oDiv (a b : Option ℚ) : Option ℚ :=
  a.bind (fun x => b.map (fun y => x / y))

/-- One row of the rental-listing table, restricted to the columns the
metrics-and-filter pipeline reads (`city`, `neighbourhood`, `price`,
`days_rented`).  A `none` field is a missing (`NaN`) cell. -/
structure Listing where
  city : Option String
  neighbourhood : Option String
  price : Option ℚ
  days_rented : Option ℚ
  deriving DecidableEq, Repr

/-- A listing row together with the five derived columns added by the
metrics block (lines 44-49 of `app.py`). -/
structure AugListing extends Listing where
  annual_income : Option ℚ
  estimated_property_value : Option ℚ
  roi_pct : Option ℚ
  net_annual_income : Option ℚ
  net_roi_pct : Option ℚ
  deriving DecidableEq, Repr

/-- One row of the sale-price table (`valencia_vivienda_limpio.csv`). -/
structure SaleRecord where
  neighbourhood : Option String
  precio : Option ℚ
  deriving DecidableEq, Repr

/-- The sale-price table: its rows, plus whether the `precio` column is
present (line 39 tests `if 'precio' in df_inmobiliario.columns`). -/
structure SaleTable where
  hasPrecio : Bool
  rows : List SaleRecord
  deriving DecidableEq, Repr

/-- The listing table: its rows, plus whether the `price` column is
present (line 37) and whether the `city` column is present (line 55). -/
structure ListingsTable where
  hasPrice : Bool
  hasCity : Bool
  rows : List Listing
  deriving DecidableEq, Repr

/-- Pandas `Series.mean()`: the arithmetic mean of the non-missing
values; `NaN` (here `none`) when there is no value. -/
def meanOpt (xs : List ℚ) : Option ℚ :=
  if xs.isEmpty then none else some (xs.sum / (xs.length : ℚ))

/-- Lines 39-42: the city reference price per m².  When the sale-price
table has a `precio` column this is `df_inmobiliario['precio'].mean()`
(missing cells ignored); otherwise the fallback constant `2000`. -/
def precioM2 (s : SaleTable) : Option ℚ :=
  if s.hasPrecio then meanOpt (s.rows.filterMap SaleRecord.precio) else some 2000

/-- Line 43: the fixed average unit size, 70 m². -/
def average_m2 : ℚ := 70

/-- Line 47: the fixed annual operating cost. -/
def gastos_anuales : ℚ := 3000

/-- Lines 44-49 applied to one row, given the scalar
`estimated_property_value` (`precio_m2_valencia * average_m2`) that is
broadcast to every row. -/
def addMetrics (epv : Option ℚ) (r : Listing) : AugListing :=
  let ai := oMul r.price r.days_rented
  { toListing := r
    annual_income := ai
    estimated_property_value := epv
    roi_pct := oMul (oDiv ai epv) (some 100)
    net_annual_income := oSub ai (some gastos_anuales)
    net_roi_pct := oMul (oDiv (oSub ai (some gastos_anuales)) epv) (some 100) }

/-- Lines 36-49: the derived-metrics block.  Lines 37-38 coerce the
`price` column to float only when it is present (an identity in this
exact-arithmetic model); line 44 (`df['price'] * df['days_rented']`)
raises a `KeyError` when the `price` column is absent, so the block
fails on such a table. -/
def computeMetrics (l : ListingsTable) (s : SaleTable) :
    Except String (List AugListing) :=
  if l.hasPrice then
    Except.ok (l.rows.map (addMetrics (oMul (precioM2 s) (some average_m2))))
  else
    Except.error "KeyError: price"

/-- Python `str.lower()`, modelled character-wise (the city names being
compared are ASCII, where `Char.toLower` agrees with Python). -/
def strLower (s : String) : String := String.mk (s.data.map Char.toLower)

/-- Python string `<=` (lexicographic by code point), as a boolean on the
character lists; `strLe_iff` below shows it is exactly the `≤` of
`String`. -/
def strLe (a b : String) : Bool := decide (a.data ≤ b.data)

/-- Line 57: a row matches the selected city when its `city` cell is
present and equal to the selection after lowercasing both sides
(`df['city'].str.lower() == ciudad_seleccionada.lower()`); a missing
`city` cell never matches. -/
def cityMatch (sel : String) (r : AugListing) : Bool :=
  match r.city with
  | some c => strLower c == strLower sel
  | none => false

/-- Lines 63 and 72: `df['neighbourhood'].isin(selected_barrios)` — a
case-sensitive membership test; a missing `neighbourhood` cell is never
a member of the (string-valued) keep-set. -/
def barrioIn (keep : List String) (r : AugListing) : Bool :=
  match r.neighbourhood with
  | some b => keep.contains b
  | none => false

/-- Lines 61 and 70: `sorted(df['neighbourhood'].dropna().unique())` —
the alphabetically sorted distinct non-missing neighbourhood values. -/
def barrioUniverse (rows : List AugListing) : List String :=
  List.insertionSort (fun a b => strLe a b = true)
    (rows.filterMap (fun r => r.neighbourhood)).dedup

/-- The error taxonomy of the app: a data-loading failure
(`No hay datos disponibles.`, line 77) versus an empty user selection
(the warnings at lines 59, 65 and 74). -/
inductive AppError where
  | dataUnavailable : String → AppError
  | noMatchingData : String → AppError
  deriving DecidableEq, Repr

/-- The fixed city enumeration offered by the selectbox (line 54). -/
def ciudades : List String := ["Valencia", "Malaga", "Madrid", "Barcelona"]

/-- Lines 54-75: the city/neighbourhood filter block.  `hasCity` is the
line-55 test `'city' in df.columns`; `sel` is the selectbox value;
`choose` is the user's multiselect response given the offered
neighbourhood universe (the widget's default is the whole universe,
i.e. `choose = fun u => u`).  An empty result at either narrowing step
is the corresponding warning plus `st.stop()`, modelled as an
`AppError.noMatchingData` outcome. -/
def filterPipeline (hasCity : Bool) (sel : String)
    (choose : List String → List String) (rows : List AugListing) :
    Except AppError (List AugListing) :=
  match hasCity with
  | true =>
    let dfCiudad := rows.filter (cityMatch sel)
    if dfCiudad.isEmpty then
      Except.error (AppError.noMatchingData "No hay datos para la ciudad seleccionada.")
    else
      let barrios := barrioUniverse dfCiudad
      let selectedBarrios := choose barrios
      let dfCiudad2 := dfCiudad.filter (barrioIn selectedBarrios)
      if dfCiudad2.isEmpty then
        Except.error (AppError.noMatchingData "No hay datos para los barrios seleccionados en la ciudad.")
      else
        Except.ok dfCiudad2
  | false =>
    let barrios := barrioUniverse rows
    let selectedBarrios := choose barrios
    let dfFiltered := rows.filter (barrioIn selectedBarrios)
    if dfFiltered.isEmpty then
      Except.error (AppError.noMatchingData "No hay datos para los barrios seleccionados.")
    else
      Except.ok dfFiltered

/-- The set the neighbourhood universe is computed from: the
city-narrowed rows when the `city` column exists (line 61), the full
dataset otherwise (line 70). -/
def narrowBase (hasCity : Bool) (sel : String) (rows : List AugListing) :
    List AugListing :=
  match hasCity with
  | true => rows.filter (cityMatch sel)
  | false => rows

/-- The value `load_data` hands back to line 33: the three tables (all
`none` on failure, as `return None, None, None`) and the strings emitted
to the presentation layer on the failure path (`st.error(...)` and
`st.text(traceback.format_exc())`). -/
structure LoadOutcome (α β γ : Type) where
  listings : Option α
  inmobiliario : Option β
  delincuencia : Option γ
  emitted : List String

/-- Line 29: the human-readable error description. -/
def formatError (e : String) : String := "Error al cargar los datos: " ++ e

/-- Line 30: the diagnostic trace of the caught exception. -/
def formatTrace (e : String) : String := "Traceback (most recent call last): " ++ e

/-- Lines 21-31: `load_data`.  The three reads are sequential inside one
`try`; the first failing read jumps to the `except` branch, which emits
the error description and the traceback and returns `None, None, None`.
The outcome of each external read is an input (`Except`-valued), since
file I/O is outside the model. -/
def load_data {α β γ : Type} (r1 : Except String α) (r2 : Except String β)
    (r3 : Except String γ) : LoadOutcome α β γ :=
  match r1 with
  | Except.error e => ⟨none, none, none, [formatError e, formatTrace e]⟩
  | Except.ok a =>
    match r2 with
    | Except.error e => ⟨none, none, none, [formatError e, formatTrace e]⟩
    | Except.ok b =>
      match r3 with
      | Except.error e => ⟨none, none, none, [formatError e, formatTrace e]⟩
      | Except.ok c => ⟨some a, some b, some c, []⟩

/-- Line 36: the caller proceeds only when
`df is not None and df_inmobiliario is not None`; otherwise it warns
`No hay datos disponibles.` and stops (lines 76-78). -/
def callerProceeds {α β γ : Type} (o : LoadOutcome α β γ) : Bool :=
  o.listings.isSome && o.inmobiliario.isSome

/-! ### Concrete tables used to instantiate the theorems -/

/-- The single listing of the scenario in the spec (§8): Valencia,
Russafa, nightly price 50, rented 100 days per year. -/
def listingRussafa : Listing :=
  { city := some "Valencia", neighbourhood := some "Russafa",
    price := some 50, days_rented := some 100 }

/-- A listing table holding exactly `listingRussafa`, with both the
`price` and the `city` columns present. -/
def listingsEx : ListingsTable := ⟨true, true, [listingRussafa]⟩

/-- A sale-price table with a `precio` column whose mean is 2500. -/
def saleEx : SaleTable := ⟨true, [⟨some "Russafa", some 2500⟩]⟩

/-- A sale-price table without a `precio` column. -/
def saleNoPrecio : SaleTable := ⟨false, [⟨some "Russafa", none⟩]⟩

/-- A listing table without a `price` column. -/
def tblNoPrice : ListingsTable := ⟨false, true, [listingRussafa]⟩

/-- The augmented row the metrics block produces from `listingRussafa`
when the city reference price is 2500 per m². -/
def augRussafa : AugListing :=
  { toListing := listingRussafa
    annual_income := some 5000
    estimated_property_value := some 175000
    roi_pct := some (20 / 7)
    net_annual_income := some 2000
    net_roi_pct := some (8 / 7) }

/-- A one-row augmented listing set used to instantiate the filter
theorems. -/
def rowsEx : List AugListing := [augRussafa]

/-! ### Helper lemmas -/

theorem strLe_iff (a b : String) : strLe a b = true ↔ a ≤ b := by
  rw [strLe, decide_eq_true_iff]
  exact String.le_iff_toList_le.symm

theorem oMul_isSome (a b : Option ℚ) :
    (oMul a b).isSome = (a.isSome && b.isSome) := by
  cases a <;> cases b <;> rfl

theorem oSub_isSome (a b : Option ℚ) :
    (oSub a b).isSome = (a.isSome && b.isSome) := by
  cases a <;> cases b <;> rfl

theorem oDiv_isSome (a b : Option ℚ) :
    (oDiv a b).isSome = (a.isSome && b.isSome) := by
  cases a <;> cases b <;> rfl

theorem computeMetrics_ok_iff (l : ListingsTable) (s : SaleTable)
    (out : List AugListing) :
    computeMetrics l s = Except.ok out ↔
      l.hasPrice = true ∧
        out = l.rows.map (addMetrics (oMul (precioM2 s) (some average_m2))) := by
  unfold computeMetrics
  cases h : l.hasPrice <;> simp [eq_comm]

theorem net_roi_scalar (a e : ℚ) :
    (a - 3000) / e * 100 = a / e * 100 - 3000 / e * 100 := by
  rw [sub_div, sub_mul]

theorem net_roi_decomp_opt (ai epv : Option ℚ) :
    oMul (oDiv (oSub ai (some gastos_anuales)) epv) (some 100) =
      oSub (oMul (oDiv ai epv) (some 100))
        (oMul (oDiv (some 3000) epv) (some 100)) := by
  cases ai with
  | none => simp [oMul, oSub, oDiv]
  | some a =>
    cases epv with
    | none => simp [oMul, oSub, oDiv]
    | some e =>
      simp [oMul, oSub, oDiv, gastos_anuales]
      exact net_roi_scalar a e

theorem precioM2_saleEx : precioM2 saleEx = some 2500 := by
  norm_num [precioM2, saleEx, meanOpt, List.filterMap_cons, List.filterMap_nil,
    SaleRecord.precio]

theorem metricsEx_eval : computeMetrics listingsEx saleEx = Except.ok [augRussafa] := by
  simp only [computeMetrics, listingsEx, precioM2_saleEx]
  norm_num [addMetrics, oMul, oDiv, oSub, average_m2, gastos_anuales, augRussafa,
    listingRussafa]

/-! ### Claims about the derived-metrics block -/

/-- Claim C1: for every listing row produced by the metrics computation,
the net ROI percentage equals the gross ROI percentage minus
(3000 divided by `estimated_property_value`, times 100). -/
theorem net_roi_eq_gross_sub_costs (l : ListingsTable) (s : SaleTable)
    (out : List AugListing) (h : computeMetrics l s = Except.ok out) :
    ∀ r ∈ out,
      r.net_roi_pct =
        oSub r.roi_pct
          (oMul (oDiv (some 3000) r.estimated_property_value) (some 100)) := by
  intro r hr
  rw [computeMetrics_ok_iff] at h
  obtain ⟨hp, rfl⟩ := h
  rw [List.mem_map] at hr
  obtain ⟨r0, hr0, rfl⟩ := hr
  simp only [addMetrics]
  exact net_roi_decomp_opt _ _

/-- Witness for C1: the decomposition evaluated on the Russafa table. -/
theorem net_roi_eq_gross_sub_costs_witness :
    augRussafa.net_roi_pct =
      oSub augRussafa.roi_pct
        (oMul (oDiv (some 3000) augRussafa.estimated_property_value) (some 100)) :=
  net_roi_eq_gross_sub_costs listingsEx saleEx [augRussafa] metricsEx_eval augRussafa
    (List.mem_singleton.mpr rfl)

/-- Claim C2: the scenario of §8 — a single Valencia/Russafa listing with
price 50 and 100 rented days, against a sale-price table with a `precio`
column of mean 2500, yields estimated property value 175000, annual
income 5000, gross ROI 20/7 ≈ 2.857 %, net annual income 2000 and net
ROI 8/7 ≈ 1.143 %. -/
theorem scenario_russafa (s : SaleTable) (h1 : s.hasPrecio = true)
    (h2 : meanOpt (s.rows.filterMap SaleRecord.precio) = some 2500) :
    computeMetrics listingsEx s = Except.ok [augRussafa] ∧
    augRussafa.estimated_property_value = some 175000 ∧
    augRussafa.annual_income = some 5000 ∧
    augRussafa.roi_pct = some (20 / 7) ∧
    augRussafa.net_annual_income = some 2000 ∧
    augRussafa.net_roi_pct = some (8 / 7) ∧
    |(20 : ℚ) / 7 - 2857 / 1000| < 1 / 1000 ∧
    |(8 : ℚ) / 7 - 1143 / 1000| < 1 / 1000 := by
  have hp : precioM2 s = some 2500 := by simp [precioM2, h1, h2]
  refine ⟨?_, rfl, rfl, rfl, rfl, rfl, by rw [abs_sub_lt_iff]; norm_num,
    by rw [abs_sub_lt_iff]; norm_num⟩
  simp only [computeMetrics, listingsEx, hp]
  norm_num [addMetrics, oMul, oDiv, oSub, average_m2, gastos_anuales, augRussafa,
    listingRussafa]

/-- Witness for C2: the sale table `saleEx` has a `precio` column of mean
2500, and the scenario evaluates as claimed on it. -/
theorem scenario_russafa_witness :
    computeMetrics listingsEx saleEx = Except.ok [augRussafa] :=
  (scenario_russafa saleEx rfl
    (by norm_num [saleEx, meanOpt, List.filterMap_cons, List.filterMap_nil,
      SaleRecord.precio])).1

/-- Claim C3: `estimated_property_value` is the same scalar — the city
reference price times the fixed 70 m² — on every output row; it is a
function of the sale-price table alone, never of a per-row field. -/
theorem epv_uniform (l : ListingsTable) (s : SaleTable) (out : List AugListing)
    (h : computeMetrics l s = Except.ok out) :
    (∀ r ∈ out, r.estimated_property_value = oMul (precioM2 s) (some average_m2)) ∧
    (∀ r1 ∈ out, ∀ r2 ∈ out,
      r1.estimated_property_value = r2.estimated_property_value) := by
  rw [computeMetrics_ok_iff] at h
  obtain ⟨hp, rfl⟩ := h
  have key : ∀ r ∈ l.rows.map (addMetrics (oMul (precioM2 s) (some average_m2))),
      r.estimated_property_value = oMul (precioM2 s) (some average_m2) := by
    intro r hr
    rw [List.mem_map] at hr
    obtain ⟨r0, hr0, rfl⟩ := hr
    rfl
  exact ⟨key, fun r1 h1 r2 h2 => (key r1 h1).trans (key r2 h2).symm⟩

/-- Witness for C3 on the Russafa table. -/
theorem epv_uniform_witness :
    augRussafa.estimated_property_value = oMul (precioM2 saleEx) (some average_m2) :=
  (epv_uniform listingsEx saleEx [augRussafa] metricsEx_eval).1 augRussafa
    (List.mem_singleton.mpr rfl)

/-- Claim C4: a sale-price table without a `precio` column makes the
metrics block use the fallback reference price 2000 and still succeed;
with the column present, the reference price is the mean of its
non-missing values. -/
theorem precio_fallback (l : ListingsTable) (s : SaleTable)
    (hl : l.hasPrice = true) :
    (s.hasPrecio = false →
      precioM2 s = some 2000 ∧ (computeMetrics l s).isOk = true) ∧
    (s.hasPrecio = true →
      precioM2 s = meanOpt (s.rows.filterMap SaleRecord.precio)) := by
  constructor
  · intro h
    refine ⟨by simp [precioM2, h], ?_⟩
    simp [computeMetrics, hl, Except.isOk, Except.toBool]
  · intro h
    simp [precioM2, h]

/-- Witness for C4: the fallback on `saleNoPrecio` and the mean on
`saleEx`. -/
theorem precio_fallback_witness :
    (precioM2 saleNoPrecio = some 2000 ∧
      (computeMetrics listingsEx saleNoPrecio).isOk = true) ∧
    precioM2 saleEx = meanOpt (saleEx.rows.filterMap SaleRecord.precio) :=
  ⟨(precio_fallback listingsEx saleNoPrecio rfl).1 rfl,
   (precio_fallback listingsEx saleEx rfl).2 rfl⟩

/-- Counterexample to C9: on a listings table without a `price` column the
metrics block does not complete — line 44 (`df['price'] * ...`) raises a
`KeyError` — so no output row with the five derived fields exists. -/
theorem metrics_missing_price_fails :
    computeMetrics tblNoPrice saleEx = Except.error "KeyError: price" := rfl

/-- Claim C9 as amended: without a `price` column the coercion step is
skipped but the metrics block then fails at the annual-income step; with
the column present it completes, drops or adds no row, and populates all
five derived fields (missing exactly when an upstream input is missing). -/
theorem metrics_missing_price_amended (l : ListingsTable) (s : SaleTable) :
    (l.hasPrice = false → computeMetrics l s = Except.error "KeyError: price") ∧
    (l.hasPrice = true →
      (computeMetrics l s).isOk = true ∧
      ∀ out, computeMetrics l s = Except.ok out →
        out.map (fun r => r.toListing) = l.rows ∧
        ∀ r ∈ out,
          r.annual_income.isSome = (r.price.isSome && r.days_rented.isSome) ∧
          r.estimated_property_value.isSome = (precioM2 s).isSome ∧
          r.roi_pct.isSome =
            (r.price.isSome && r.days_rented.isSome && (precioM2 s).isSome) ∧
          r.net_annual_income.isSome = (r.price.isSome && r.days_rented.isSome) ∧
          r.net_roi_pct.isSome =
            (r.price.isSome && r.days_rented.isSome && (precioM2 s).isSome)) := by
  constructor
  · intro h
    simp [computeMetrics, h]
  · intro h
    refine ⟨by simp [computeMetrics, h, Except.isOk, Except.toBool], ?_⟩
    intro out hout
    rw [computeMetrics_ok_iff] at hout
    obtain ⟨-, rfl⟩ := hout
    constructor
    · have hr0 : ∀ r0 : Listing,
          (addMetrics (oMul (precioM2 s) (some average_m2)) r0).toListing = r0 :=
        fun r0 => rfl
      simp [List.map_map, Function.comp_def, hr0]
    · intro r hr
      rw [List.mem_map] at hr
      obtain ⟨r0, hr0, rfl⟩ := hr
      simp [addMetrics, oMul_isSome, oDiv_isSome, oSub_isSome, Bool.and_assoc]

/-- Witness for the amended C9: failure on `tblNoPrice`, success and
row preservation on `listingsEx`. -/
theorem metrics_missing_price_amended_witness :
    computeMetrics tblNoPrice saleEx = Except.error "KeyError: price" ∧
    (computeMetrics listingsEx saleEx).isOk = true ∧
    [augRussafa].map (fun r => r.toListing) = listingsEx.rows ∧
    augRussafa.annual_income.isSome =
      (augRussafa.price.isSome && augRussafa.days_rented.isSome) :=
  ⟨(metrics_missing_price_amended tblNoPrice saleEx).1 rfl,
   ((metrics_missing_price_amended listingsEx saleEx).2 rfl).1,
   (((metrics_missing_price_amended listingsEx saleEx).2 rfl).2 [augRussafa]
      metricsEx_eval).1,
   ((((metrics_missing_price_amended listingsEx saleEx).2 rfl).2 [augRussafa]
      metricsEx_eval).2 augRussafa (List.mem_singleton.mpr rfl)).1⟩

/-! ### Helper lemmas for the filter block -/

instance strLeRel_total : IsTotal String (fun a b => strLe a b = true) :=
  ⟨fun a b => by
    by_cases h : a ≤ b
    · exact Or.inl ((strLe_iff a b).mpr h)
    · exact Or.inr ((strLe_iff b a).mpr (le_of_not_le h))⟩

instance strLeRel_trans : IsTrans String (fun a b => strLe a b = true) :=
  ⟨fun a b c hab hbc =>
    (strLe_iff a c).mpr (le_trans ((strLe_iff a b).mp hab) ((strLe_iff b c).mp hbc))⟩

theorem narrowBase_true (sel : String) (rows : List AugListing) :
    narrowBase true sel rows = rows.filter (cityMatch sel) := rfl

theorem narrowBase_false (sel : String) (rows : List AugListing) :
    narrowBase false sel rows = rows := rfl

theorem pipeline_step_iff (p : List AugListing) (msg : String)
    (out : List AugListing) :
    ((if p.isEmpty then Except.error (AppError.noMatchingData msg)
        else Except.ok p) = Except.ok out) ↔ (out = p ∧ out ≠ []) := by
  by_cases hp : p.isEmpty = true
  · rw [if_pos hp]
    have hnil : p = [] := List.isEmpty_iff.mp hp
    constructor
    · intro h
      exact absurd h (by simp)
    · intro h
      exact absurd (h.1.trans hnil) h.2
  · rw [if_neg hp]
    have hnil : p ≠ [] := by
      intro h
      exact hp (by simp [h])
    constructor
    · intro h
      have hpo : p = out := by
        injection h
      exact ⟨hpo.symm, hpo ▸ hnil⟩
    · intro h
      rw [h.1]

theorem filterPipeline_ok_iff (hasCity : Bool) (sel : String)
    (choose : List String → List String) (rows out : List AugListing) :
    filterPipeline hasCity sel choose rows = Except.ok out ↔
      (out = (narrowBase hasCity sel rows).filter
          (barrioIn (choose (barrioUniverse (narrowBase hasCity sel rows)))) ∧
        out ≠ []) := by
  cases hasCity with
  | false =>
    rw [narrowBase_false]
    exact pipeline_step_iff _ _ _
  | true =>
    rw [narrowBase_true]
    by_cases hc : (rows.filter (cityMatch sel)).isEmpty = true
    · have hnil : rows.filter (cityMatch sel) = [] := List.isEmpty_iff.mp hc
      show (if (rows.filter (cityMatch sel)).isEmpty then _ else _) = _ ↔ _
      rw [if_pos hc]
      constructor
      · intro h
        exact absurd h (by simp)
      · intro h
        refine absurd ?_ h.2
        rw [h.1, hnil, List.filter_nil]
    · show (if (rows.filter (cityMatch sel)).isEmpty then _ else _) = _ ↔ _
      rw [if_neg hc]
      exact pipeline_step_iff _ _ _

theorem filterPipeline_const_ok_iff (hasCity : Bool) (sel : String)
    (keep : List String) (rows out : List AugListing) :
    filterPipeline hasCity sel (fun _ => keep) rows = Except.ok out ↔
      (out = (narrowBase hasCity sel rows).filter (barrioIn keep) ∧ out ≠ []) :=
  filterPipeline_ok_iff hasCity sel (fun _ => keep) rows out

/-! ### Claims about the filter block -/

/-- Claim C5: the filter proceeds by narrowing to the selected city
(case-insensitive, skipped when the `city` column is absent), building
the sorted distinct neighbourhood universe from the narrowed (not
global) set, offering it to the selection (`choose`, whose widget
default is the whole universe, `choose = fun u => u`), and keeping
exactly the rows whose neighbourhood is a case-sensitive member of the
chosen keep-set. -/
theorem filter_steps (hasCity : Bool) (sel : String)
    (choose : List String → List String) (rows : List AugListing) :
    (∀ r : AugListing, cityMatch sel r = true ↔
      ∃ c, r.city = some c ∧ strLower c = strLower sel) ∧
    (∀ (keep : List String) (r : AugListing), barrioIn keep r = true ↔
      ∃ b, r.neighbourhood = some b ∧ b ∈ keep) ∧
    List.Sorted (fun a b : String => a ≤ b)
      (barrioUniverse (narrowBase hasCity sel rows)) ∧
    (barrioUniverse (narrowBase hasCity sel rows)).Nodup ∧
    (∀ b, b ∈ barrioUniverse (narrowBase hasCity sel rows) ↔
      ∃ r ∈ narrowBase hasCity sel rows, r.neighbourhood = some b) ∧
    (hasCity = true → narrowBase hasCity sel rows = rows.filter (cityMatch sel)) ∧
    (hasCity = false → narrowBase hasCity sel rows = rows) ∧
    (∀ out, filterPipeline hasCity sel choose rows = Except.ok out →
      out = (narrowBase hasCity sel rows).filter
        (barrioIn (choose (barrioUniverse (narrowBase hasCity sel rows))))) := by
  refine ⟨?_, ?_, ?_, ?_, ?_, ?_, ?_, ?_⟩
  · intro r
    cases hc : r.city with
    | none => simp [cityMatch, hc]
    | some c => simp [cityMatch, hc, beq_iff_eq]
  · intro keep r
    cases hn : r.neighbourhood with
    | none => simp [barrioIn, hn]
    | some b => simp [barrioIn, hn, List.elem_iff]
  · have hs := List.sorted_insertionSort (fun a b : String => strLe a b = true)
      ((narrowBase hasCity sel rows).filterMap (fun r => r.neighbourhood)).dedup
    exact List.Pairwise.imp (fun {a b} h => (strLe_iff a b).mp h) hs
  · exact (List.perm_insertionSort _ _).nodup_iff.mpr (List.nodup_dedup _)
  · intro b
    simp [barrioUniverse, List.mem_insertionSort, List.mem_dedup, List.mem_filterMap]
  · intro h
    subst h
    rfl
  · intro h
    subst h
    rfl
  · intro out h
    exact ((filterPipeline_ok_iff hasCity sel choose rows out).mp h).1

/-- Witness for C5: the city-insensitive selection `valencia` on the
one-row table, with the default (identity) neighbourhood selection. -/
theorem filter_steps_witness :
    [augRussafa] = (narrowBase true "valencia" rowsEx).filter
      (barrioIn ((fun u => u) (barrioUniverse (narrowBase true "valencia" rowsEx)))) :=
  (filter_steps true "valencia" (fun u => u) rowsEx).2.2.2.2.2.2.2 [augRussafa] rfl

/-- Claim C6: an empty narrowing step (city or neighbourhood) makes the
filter stop with a `NoMatchingData` warning — an outcome distinct from
`DataUnavailable` — and produce no table for the render pass; when the
city narrowing is already empty the outcome is fixed before, and
independently of, the neighbourhood universe and selection
(the conclusion holds for every `choose`). -/
theorem filter_empty_warning (sel : String)
    (choose : List String → List String) (rows : List AugListing) :
    (∀ m1 m2 : String, AppError.noMatchingData m1 ≠ AppError.dataUnavailable m2) ∧
    ((rows.filter (cityMatch sel)).isEmpty = true →
      filterPipeline true sel choose rows =
        Except.error (AppError.noMatchingData
          "No hay datos para la ciudad seleccionada.")) ∧
    ((rows.filter (cityMatch sel)).isEmpty = false →
      ((rows.filter (cityMatch sel)).filter
          (barrioIn (choose (barrioUniverse (rows.filter (cityMatch sel)))))).isEmpty
            = true →
      filterPipeline true sel choose rows =
        Except.error (AppError.noMatchingData
          "No hay datos para los barrios seleccionados en la ciudad.")) ∧
    ((rows.filter (barrioIn (choose (barrioUniverse rows)))).isEmpty = true →
      filterPipeline false sel choose rows =
        Except.error (AppError.noMatchingData
          "No hay datos para los barrios seleccionados.")) ∧
    (∀ e, filterPipeline true sel choose rows = Except.error e →
      ∃ m, e = AppError.noMatchingData m) ∧
    (∀ e, filterPipeline false sel choose rows = Except.error e →
      ∃ m, e = AppError.noMatchingData m) := by
  refine ⟨fun m1 m2 h => by injection h, ?_, ?_, ?_, ?_, ?_⟩
  · intro h
    show (if (rows.filter (cityMatch sel)).isEmpty then _ else _) = _
    rw [if_pos h]
  · intro h1 h2
    show (if (rows.filter (cityMatch sel)).isEmpty then _ else _) = _
    rw [if_neg (by simp [h1]), if_pos h2]
  · intro h
    show (if (rows.filter (barrioIn (choose (barrioUniverse rows)))).isEmpty
        then _ else _) = _
    rw [if_pos h]
  · intro e h
    revert h
    show (if (rows.filter (cityMatch sel)).isEmpty then _ else _) = _ → _
    by_cases h1 : (rows.filter (cityMatch sel)).isEmpty = true
    · rw [if_pos h1]
      intro h
      injection h with h
      exact ⟨_, h.symm⟩
    · rw [if_neg h1]
      by_cases h2 : ((rows.filter (cityMatch sel)).filter
          (barrioIn (choose (barrioUniverse (rows.filter (cityMatch sel)))))).isEmpty = true
      · rw [if_pos h2]
        intro h
        injection h with h
        exact ⟨_, h.symm⟩
      · rw [if_neg h2]
        intro h
        exact absurd h (by simp)
  · intro e h
    revert h
    show (if (rows.filter (barrioIn (choose (barrioUniverse rows)))).isEmpty
        then _ else _) = _ → _
    by_cases h1 : (rows.filter (barrioIn (choose (barrioUniverse rows)))).isEmpty = true
    · rw [if_pos h1]
      intro h
      injection h with h
      exact ⟨_, h.symm⟩
    · rw [if_neg h1]
      intro h
      exact absurd h (by simp)

/-- Witness for C6: the §8 scenario — city `madrid` selected while every
row is in Valencia — stops with the city-level `NoMatchingData`
warning. -/
theorem filter_empty_warning_witness :
    filterPipeline true "madrid" (fun u => u) rowsEx =
      Except.error (AppError.noMatchingData
        "No hay datos para la ciudad seleccionada.") :=
  (filter_empty_warning "madrid" (fun u => u) rowsEx).2.1 rfl

/-- Claim C7: filtering is idempotent — running the filter again on its
own output, with the same city and the same neighbourhood keep-set,
returns the output unchanged. -/
theorem filter_idempotent (hasCity : Bool) (sel : String) (keep : List String)
    (rows out : List AugListing)
    (h : filterPipeline hasCity sel (fun _ => keep) rows = Except.ok out) :
    filterPipeline hasCity sel (fun _ => keep) out = Except.ok out := by
  rw [filterPipeline_const_ok_iff] at h ⊢
  obtain ⟨hout, hne⟩ := h
  refine ⟨?_, hne⟩
  cases hasCity with
  | true =>
    rw [narrowBase_true] at hout ⊢
    subst hout
    have h1 : ((rows.filter (cityMatch sel)).filter (barrioIn keep)).filter
        (cityMatch sel) =
        (rows.filter (cityMatch sel)).filter (barrioIn keep) :=
      List.filter_eq_self.mpr
        (fun r hr => (List.mem_filter.mp (List.mem_filter.mp hr).1).2)
    have h2 : ((rows.filter (cityMatch sel)).filter (barrioIn keep)).filter
        (barrioIn keep) =
        (rows.filter (cityMatch sel)).filter (barrioIn keep) :=
      List.filter_eq_self.mpr (fun r hr => (List.mem_filter.mp hr).2)
    rw [h1, h2]
  | false =>
    rw [narrowBase_false] at hout ⊢
    subst hout
    have h2 : (rows.filter (barrioIn keep)).filter (barrioIn keep) =
        rows.filter (barrioIn keep) :=
      List.filter_eq_self.mpr (fun r hr => (List.mem_filter.mp hr).2)
    rw [h2]

/-- Witness for C7: re-filtering the filtered one-row table by the same
selection returns it unchanged. -/
theorem filter_idempotent_witness :
    filterPipeline true "valencia" (fun _ => ["Russafa"]) [augRussafa] =
      Except.ok [augRussafa] :=
  filter_idempotent true "valencia" ["Russafa"] rowsEx [augRussafa] rfl

/-- Claim C10: a row whose neighbourhood is missing can never appear in a
filter result — the universe holds only non-missing values and a missing
value is never a member of the keep-set — for any selection, the default
(whole-universe) one included. -/
theorem filtered_neighbourhood_present (hasCity : Bool) (sel : String)
    (choose : List String → List String) (rows out : List AugListing)
    (h : filterPipeline hasCity sel choose rows = Except.ok out) :
    ∀ r ∈ out, r.neighbourhood.isSome = true := by
  rw [filterPipeline_ok_iff] at h
  obtain ⟨hout, -⟩ := h
  subst hout
  intro r hr
  have hb := (List.mem_filter.mp hr).2
  cases hn : r.neighbourhood with
  | some b => rfl
  | none => simp [barrioIn, hn] at hb

/-- Witness for C10 on the filtered one-row table. -/
theorem filtered_neighbourhood_present_witness :
    augRussafa.neighbourhood.isSome = true :=
  filtered_neighbourhood_present true "valencia" (fun u => u) rowsEx [augRussafa]
    rfl augRussafa (List.mem_singleton.mpr rfl)

/-! ### Claim about the loader -/

/-- Claim C8: `load_data` is atomic — it either succeeds with all three
tables, or, when any of the three reads fails, emits the human-readable
error description and the diagnostic trace and returns all three tables
unavailable (never a partial result), upon which the caller does not
proceed (lines 76-78 stop the run). -/
theorem load_atomic {α β γ : Type} (r1 : Except String α) (r2 : Except String β)
    (r3 : Except String γ) :
    (∃ a b c, r1 = Except.ok a ∧ r2 = Except.ok b ∧ r3 = Except.ok c ∧
      load_data r1 r2 r3 = ⟨some a, some b, some c, []⟩) ∨
    ((load_data r1 r2 r3).listings = none ∧
      (load_data r1 r2 r3).inmobiliario = none ∧
      (load_data r1 r2 r3).delincuencia = none ∧
      callerProceeds (load_data r1 r2 r3) = false ∧
      ∃ e, (r1 = Except.error e ∨ r2 = Except.error e ∨ r3 = Except.error e) ∧
        (load_data r1 r2 r3).emitted = [formatError e, formatTrace e]) := by
  cases r1 with
  | error e => exact Or.inr ⟨rfl, rfl, rfl, rfl, e, Or.inl rfl, rfl⟩
  | ok a =>
    cases r2 with
    | error e => exact Or.inr ⟨rfl, rfl, rfl, rfl, e, Or.inr (Or.inl rfl), rfl⟩
    | ok b =>
      cases r3 with
      | error e => exact Or.inr ⟨rfl, rfl, rfl, rfl, e, Or.inr (Or.inr rfl), rfl⟩
      | ok c => exact Or.inl ⟨a, b, c, rfl, rfl, rfl, rfl⟩

end RealEstate
